import Mathlib

/-!
Verification of skll/utilities/generate_predictions.py: a shallow embedding
of the Predictor wrapper and the CLI entry point, with theorems about the
prediction post-processing branches and the per-file dispatch loop.

Raw model outputs come from numpy .tolist() and are dynamically typed
Python values (numbers, nested lists); we embed them as PyVal.  Fallible
Python operations (subscripting, attribute access, int()) return Except.
-/

/-- Python exception kinds raised by the operations this file uses. -/
inductive PyErr where
  | typeError
  | indexError
  | attributeError
  | valueError
deriving Repr, DecidableEq

/-- Dynamically typed Python values as produced by numpy .tolist():
integers, floats (embedded as rationals: only comparison and pass-through
are performed on them, both exact), strings and lists. -/
inductive PyVal where
  | vint : Int → PyVal
  | vfloat : ℚ → PyVal
  | vstr : String → PyVal
  | vlist : List PyVal → PyVal
deriving Repr

/-- Python list subscript l[i]: negative indices count from the end,
out-of-range raises IndexError. -/
def pyListGet (l : List PyVal) (i : Int) : Except PyErr PyVal :=
  let j : Int := if i < 0 then i + l.length else i
  if h : 0 ≤ j ∧ j.toNat < l.length then Except.ok (l.get ⟨j.toNat, h.2⟩)
  else Except.error PyErr.indexError

/-- Python subscript v[i] on a dynamic value: lists and strings are
subscriptable, numbers raise TypeError. -/
def pyGetItem : PyVal → Int → Except PyErr PyVal
  | PyVal.vlist l, i => pyListGet l i
  | PyVal.vstr s, i =>
    let cs := s.data
    let j : Int := if i < 0 then i + cs.length else i
    if h : 0 ≤ j ∧ j.toNat < cs.length then
      Except.ok (PyVal.vstr (String.mk [cs.get ⟨j.toNat, h.2⟩]))
    else Except.error PyErr.indexError
  | _, _ => Except.error PyErr.typeError

/-- Numeric view of a PyVal (ints and floats), none otherwise. -/
def PyVal.asRat : PyVal → Option ℚ
  | PyVal.vint n => some (n : ℚ)
  | PyVal.vfloat q => some q
  | _ => none

/-- Python comparison v >= t against a float threshold t: defined on
numbers, TypeError on strings and lists. -/
def pyGE (v : PyVal) (t : ℚ) : Except PyErr Bool :=
  match v with
  | PyVal.vint n => Except.ok (decide (t ≤ (n : ℚ)))
  | PyVal.vfloat q => Except.ok (decide (t ≤ q))
  | _ => Except.error PyErr.typeError

/-- Python int(x): identity on ints, truncation toward zero on floats,
decimal parse on strings (ValueError on failure), TypeError on lists. -/
def pyToInt : PyVal → Except PyErr Int
  | PyVal.vint n => Except.ok n
  | PyVal.vfloat q => Except.ok (if 0 ≤ q then q.floor else q.ceil)
  | PyVal.vstr s =>
    match s.trim.toInt? with
    | some n => Except.ok n
    | none => Except.error PyErr.valueError
  | PyVal.vlist _ => Except.error PyErr.typeError

/-- A Python list comprehension [f(x) for x in l] where f may raise:
evaluated left to right, the first exception propagates. -/
def mapE {α β ε : Type} (f : α → Except ε β) : List α → Except ε (List β)
  | [] => Except.ok []
  | x :: xs =>
    match f x with
    | Except.error e => Except.error e
    | Except.ok y =>
      match mapE f xs with
      | Except.error e => Except.error e
      | Except.ok ys => Except.ok (y :: ys)

/-- A FeatureSet: an in-memory list of examples (feature vectors). -/
structure FeatureSet where
  examples : List (List ℚ)

/-- The model family of a loaded learner; issubclass(-, RegressorMixin)
distinguishes regression from classification. -/
inductive ModelType where
  | regressor
  | classifier
deriving Repr, DecidableEq

/-- issubclass(model_type, RegressorMixin). -/
def regressorMixinSubclass : ModelType → Bool
  | ModelType.regressor => true
  | ModelType.classifier => false

/-- The learner's feature encoder; isinstance(-, FeatureHasher)
distinguishes a hashing encoder from a vocabulary-based one. -/
inductive Vectorizer where
  | featureHasher
  | dictVectorizer
deriving Repr, DecidableEq

/-- isinstance(feat_vectorizer, FeatureHasher). -/
def vectIsHasher : Vectorizer → Bool
  | Vectorizer.featureHasher => true
  | Vectorizer.dictVectorizer => false

/-- The external Learner object: capability flags, ordered label list and
the underlying predict operation (flag: feature_hasher keyword; output:
one raw dynamically-typed value per row, per the external contract). -/
structure Learner where
  probability : Bool
  model_type : ModelType
  feat_vectorizer : Vectorizer
  label_list : List PyVal
  predictRaw : Bool → FeatureSet → List PyVal

/-- The Predictor wrapper state set by Predictor.__init__:
self._learner, self._pos_index, self.threshold. -/
structure Predictor where
  learner : Learner
  pos_index : Int
  threshold : Option ℚ

/-- Predictor.__init__(model_path, threshold, positive_class):
loads the learner from the path (Learner.from_file is external, passed as
a function) and stores the configuration. -/
def Predictor.init (from_file : String → Learner) (model_path : String)
    (threshold : Option ℚ) (positive_class : Int) : Predictor :=
  { learner := from_file model_path
    pos_index := positive_class
    threshold := threshold }

/-- The raw per-example predictions computed inside Predictor.predict:
self._learner.predict(data, feature_hasher=use_feature_hashing).tolist(). -/
def rawPreds (p : Predictor) (data : FeatureSet) : List PyVal :=
  p.learner.predictRaw (vectIsHasher p.learner.feat_vectorizer) data

/-- One element of the thresholded probability comprehension:
int(pred[self._pos_index] >= self.threshold). -/
def probThresholdOne (pos : Int) (t : ℚ) (pred : PyVal) : Except PyErr PyVal :=
  match pyGetItem pred pos with
  | Except.error e => Except.error e
  | Except.ok v =>
    match pyGE v t with
    | Except.error e => Except.error e
    | Except.ok b => Except.ok (PyVal.vint (if b then 1 else 0))

/-- The index expression of the classification branch:
pred if isinstance(pred, int) else int(pred[0]). -/
def normalizeIdx (pred : PyVal) : Except PyErr Int :=
  match pred with
  | PyVal.vint n => Except.ok n
  | _ =>
    match pyGetItem pred 0 with
    | Except.error e => Except.error e
    | Except.ok x => pyToInt x

/-- One element of the classification comprehension:
self._learner.label_list[pred if isinstance(pred, int) else int(pred[0])]. -/
def classifyOne (labels : List PyVal) (pred : PyVal) : Except PyErr PyVal :=
  match normalizeIdx pred with
  | Except.error e => Except.error e
  | Except.ok n => pyListGet labels n

/-- Predictor.predict(data): computes the raw predictions, then branches on
the learner's capability flags exactly as the source does. -/
def Predictor.predict (p : Predictor) (data : FeatureSet) :
    Except PyErr (List PyVal) :=
  let preds := rawPreds p data
  if p.learner.probability then
    match p.threshold with
    | none => mapE (fun pred => pyGetItem pred p.pos_index) preds
    | some t => mapE (probThresholdOne p.pos_index t) preds
  else if regressorMixinSubclass p.learner.model_type then
    Except.ok preds
  else
    mapE (classifyOne p.learner.label_list) preds

/-- Translation of Predictor.predict as a state transformer on the wrapper
object: the method body contains no assignment to any self attribute, so
the post-state is rebuilt from the pre-state fields untouched. -/
def Predictor.predictCall (p : Predictor) (data : FeatureSet) :
    Except PyErr (List PyVal) × Predictor :=
  (p.predict data,
   { learner := p.learner, pos_index := p.pos_index, threshold := p.threshold })

theorem mapE_ok_length {α β ε : Type} (f : α → Except ε β) :
    ∀ (l : List α) (out : List β), mapE f l = Except.ok out →
      out.length = l.length := by
  intro l
  induction l with
  | nil =>
    intro out h
    simp only [mapE] at h
    cases h
    rfl
  | cons x xs ih =>
    intro out h
    simp only [mapE] at h
    cases hfx : f x with
    | error e => rw [hfx] at h; cases h
    | ok y =>
      rw [hfx] at h
      cases hrest : mapE f xs with
      | error e => rw [hrest] at h; cases h
      | ok ys =>
        rw [hrest] at h
        cases h
        simp [ih ys hrest]

theorem mapE_ok_get {α β ε : Type} (f : α → Except ε β) :
    ∀ (l : List α) (out : List β), mapE f l = Except.ok out →
      ∀ (i : Nat) (hi : i < l.length) (ho : i < out.length),
        f (l.get ⟨i, hi⟩) = Except.ok (out.get ⟨i, ho⟩) := by
  intro l
  induction l with
  | nil =>
    intro out _ i hi
    exact absurd hi (Nat.not_lt_zero i)
  | cons x xs ih =>
    intro out h i hi ho
    simp only [mapE] at h
    cases hfx : f x with
    | error e => rw [hfx] at h; cases h
    | ok y =>
      rw [hfx] at h
      cases hrest : mapE f xs with
      | error e => rw [hrest] at h; cases h
      | ok ys =>
        rw [hrest] at h
        cases h
        cases i with
        | zero => simpa using hfx
        | succ j =>
          exact ih ys hrest j (Nat.lt_of_succ_lt_succ hi)
            (Nat.lt_of_succ_lt_succ ho)

theorem mapE_ok_of_forall {α β ε : Type} (f : α → Except ε β) :
    ∀ (l : List α), (∀ x ∈ l, ∃ y, f x = Except.ok y) →
      ∃ out, mapE f l = Except.ok out := by
  intro l
  induction l with
  | nil => intro _; exact ⟨[], rfl⟩
  | cons x xs ih =>
    intro h
    obtain ⟨y, hy⟩ := h x (List.mem_cons_self x xs)
    obtain ⟨ys, hys⟩ := ih (fun z hz => h z (List.mem_cons_of_mem x hz))
    exact ⟨y :: ys, by simp only [mapE, hy, hys]⟩

theorem probThresholdOne_ok (pos : Int) (t : ℚ) (pred out : PyVal)
    (h : probThresholdOne pos t pred = Except.ok out) :
    ∃ v q, pyGetItem pred pos = Except.ok v ∧ PyVal.asRat v = some q ∧
      out = PyVal.vint (if t ≤ q then 1 else 0) := by
  unfold probThresholdOne at h
  cases hpi : pyGetItem pred pos with
  | error e => rw [hpi] at h; cases h
  | ok v =>
    rw [hpi] at h
    dsimp only at h
    cases hge : pyGE v t with
    | error e => rw [hge] at h; cases h
    | ok b =>
      rw [hge] at h
      dsimp only at h
      injection h with hout
      cases v with
      | vint n =>
        refine ⟨PyVal.vint n, (n : ℚ), rfl, rfl, ?_⟩
        simp only [pyGE] at hge
        injection hge with hb
        rw [← hout, ← hb]
        by_cases hle : t ≤ (n : ℚ) <;> simp [hle]
      | vfloat q =>
        refine ⟨PyVal.vfloat q, q, rfl, rfl, ?_⟩
        simp only [pyGE] at hge
        injection hge with hb
        rw [← hout, ← hb]
        by_cases hle : t ≤ q <;> simp [hle]
      | vstr s => simp [pyGE] at hge
      | vlist l => simp [pyGE] at hge

theorem classifyOne_ok (labels : List PyVal) (pred out : PyVal)
    (h : classifyOne labels pred = Except.ok out) :
    ∃ n, normalizeIdx pred = Except.ok n ∧
      pyListGet labels n = Except.ok out := by
  unfold classifyOne at h
  cases hn : normalizeIdx pred with
  | error e => rw [hn] at h; cases h
  | ok n => rw [hn] at h; exact ⟨n, rfl, h⟩

/-- Claim C1: for a FeatureSet of N examples (with the external learner
returning one raw output per example), Predictor.predict returns exactly N
values, and the value at each position i is obtained by applying a single
per-example transform to the raw output for example i, so the FeatureSet
iteration order is preserved. -/
theorem predict_length_order (p : Predictor) (data : FeatureSet)
    (out : List PyVal)
    (hlen : (rawPreds p data).length = data.examples.length)
    (hok : p.predict data = Except.ok out) :
    out.length = data.examples.length ∧
    ∃ f : PyVal → Except PyErr PyVal,
      ∀ (i : Nat) (hi : i < (rawPreds p data).length) (ho : i < out.length),
        f ((rawPreds p data).get ⟨i, hi⟩) = Except.ok (out.get ⟨i, ho⟩) := by
  simp only [Predictor.predict] at hok
  by_cases hp : p.learner.probability = true
  · rw [if_pos hp] at hok
    cases ht : p.threshold with
    | none =>
      rw [ht] at hok
      exact ⟨(mapE_ok_length _ _ _ hok).trans hlen,
        ⟨fun pred => pyGetItem pred p.pos_index,
         fun i hi ho => mapE_ok_get _ _ _ hok i hi ho⟩⟩
    | some t =>
      rw [ht] at hok
      exact ⟨(mapE_ok_length _ _ _ hok).trans hlen,
        ⟨probThresholdOne p.pos_index t,
         fun i hi ho => mapE_ok_get _ _ _ hok i hi ho⟩⟩
  · rw [if_neg hp] at hok
    by_cases hr : regressorMixinSubclass p.learner.model_type = true
    · rw [if_pos hr] at hok
      injection hok with hpreds
      subst hpreds
      exact ⟨hlen, ⟨Except.ok, fun i hi ho => rfl⟩⟩
    · rw [if_neg hr] at hok
      exact ⟨(mapE_ok_length _ _ _ hok).trans hlen,
        ⟨classifyOne p.learner.label_list,
         fun i hi ho => mapE_ok_get _ _ _ hok i hi ho⟩⟩

/-- Claim C2: for a probability-producing model with threshold T configured,
each output value is the integer 1 when the probability at the configured
positive-class index is at least T, and 0 otherwise; a probability exactly
equal to T yields 1. -/
theorem predict_threshold_binary (p : Predictor) (data : FeatureSet) (t : ℚ)
    (out : List PyVal)
    (hprob : p.learner.probability = true) (ht : p.threshold = some t)
    (hok : p.predict data = Except.ok out) :
    ∀ (i : Nat) (ho : i < out.length),
      ∃ (hi : i < (rawPreds p data).length) (v : PyVal) (q : ℚ),
        pyGetItem ((rawPreds p data).get ⟨i, hi⟩) p.pos_index = Except.ok v ∧
        PyVal.asRat v = some q ∧
        out.get ⟨i, ho⟩ = PyVal.vint (if t ≤ q then 1 else 0) ∧
        (q = t → out.get ⟨i, ho⟩ = PyVal.vint 1) := by
  intro i ho
  simp only [Predictor.predict, hprob, if_true, ht] at hok
  have hlen := mapE_ok_length _ _ _ hok
  have hi : i < (rawPreds p data).length := hlen ▸ ho
  have hget := mapE_ok_get _ _ _ hok i hi ho
  obtain ⟨v, q, h1, h2, h3⟩ := probThresholdOne_ok _ _ _ _ hget
  refine ⟨hi, v, q, h1, h2, h3, fun hq => ?_⟩
  rw [h3, hq]
  simp

/-- Claim C3: for a probability-producing model with no threshold
configured, each output value is exactly the raw probability value at the
configured positive-class index for that example, unmodified. -/
theorem predict_probability_raw (p : Predictor) (data : FeatureSet)
    (out : List PyVal)
    (hprob : p.learner.probability = true) (ht : p.threshold = none)
    (hok : p.predict data = Except.ok out) :
    ∀ (i : Nat) (ho : i < out.length),
      ∃ hi : i < (rawPreds p data).length,
        pyGetItem ((rawPreds p data).get ⟨i, hi⟩) p.pos_index =
          Except.ok (out.get ⟨i, ho⟩) := by
  intro i ho
  simp only [Predictor.predict, hprob, if_true, ht] at hok
  have hlen := mapE_ok_length _ _ _ hok
  have hi : i < (rawPreds p data).length := hlen ▸ ho
  exact ⟨hi, mapE_ok_get _ _ _ hok i hi ho⟩

/-- Claim C4: for a model that is not probability-producing and whose
family is regression, Predictor.predict returns the raw predictions from
the underlying model unchanged. -/
theorem predict_regression (p : Predictor) (data : FeatureSet)
    (hprob : p.learner.probability = false)
    (hreg : regressorMixinSubclass p.learner.model_type = true) :
    p.predict data = Except.ok (rawPreds p data) := by
  simp [Predictor.predict, hprob, hreg]

/-- Claim C5: for a plain-classification model, each output value is
label_list at the normalized raw index, and a bare integer raw prediction
normalizes to the same index as a one-element container holding it. -/
theorem predict_classification (p : Predictor) (data : FeatureSet)
    (out : List PyVal)
    (hprob : p.learner.probability = false)
    (hreg : regressorMixinSubclass p.learner.model_type = false)
    (hok : p.predict data = Except.ok out) :
    (∀ (i : Nat) (ho : i < out.length),
      ∃ (hi : i < (rawPreds p data).length) (n : Int),
        normalizeIdx ((rawPreds p data).get ⟨i, hi⟩) = Except.ok n ∧
        pyListGet p.learner.label_list n = Except.ok (out.get ⟨i, ho⟩)) ∧
    (∀ n : Int, normalizeIdx (PyVal.vint n) = Except.ok n ∧
      normalizeIdx (PyVal.vlist [PyVal.vint n]) = Except.ok n) := by
  constructor
  · intro i ho
    simp only [Predictor.predict, hprob, hreg, if_false, Bool.false_eq_true] at hok
    have hlen := mapE_ok_length _ _ _ hok
    have hi : i < (rawPreds p data).length := hlen ▸ ho
    obtain ⟨n, h1, h2⟩ := classifyOne_ok _ _ _ (mapE_ok_get _ _ _ hok i hi ho)
    exact ⟨hi, n, h1, h2⟩
  · intro n
    exact ⟨rfl, rfl⟩

/-- Claim C8: predict leaves the Predictor configuration (learner,
positive-class index, threshold) unchanged, and a second call on the
resulting state with the same FeatureSet returns an equal result. -/
theorem predict_config_immutable (p : Predictor) (data : FeatureSet) :
    ((p.predictCall data).2.learner = p.learner ∧
     (p.predictCall data).2.pos_index = p.pos_index ∧
     (p.predictCall data).2.threshold = p.threshold) ∧
    ((p.predictCall data).2.predictCall data).1 = (p.predictCall data).1 :=
  ⟨⟨rfl, rfl, rfl⟩, rfl⟩

theorem pyListGet_eq_of_bounds (l : List PyVal) (i : Int)
    (h0 : 0 ≤ i) (hnat : i.toNat < l.length) :
    pyListGet l i = Except.ok (l.get ⟨i.toNat, hnat⟩) := by
  have hneg : ¬ i < 0 := not_lt.mpr h0
  simp only [pyListGet, hneg, if_false]
  rw [dif_pos ⟨h0, hnat⟩]

theorem pyGetItem_vfloat_of_bounds (v : List ℚ) (i : Int)
    (h0 : 0 ≤ i) (hl : i < (v.length : Int)) :
    ∃ q : ℚ, pyGetItem (PyVal.vlist (v.map PyVal.vfloat)) i =
      Except.ok (PyVal.vfloat q) := by
  have hnat : i.toNat < (v.map PyVal.vfloat).length := by
    rw [List.length_map]; omega
  refine ⟨v.get ⟨i.toNat, by simpa using hnat⟩, ?_⟩
  rw [show pyGetItem (PyVal.vlist (v.map PyVal.vfloat)) i =
        pyListGet (v.map PyVal.vfloat) i from rfl,
      pyListGet_eq_of_bounds _ _ h0 hnat]
  simp [List.getElem_map]

/-- Claim C10: in probability mode the positive-class lookup is unguarded,
but under the precondition that the positive-class index is within the
bounds of every example's probability vector, predict raises no exception,
whether or not a threshold is configured. -/
theorem predict_prob_index_safe (p : Predictor) (data : FeatureSet)
    (hprob : p.learner.probability = true)
    (hvec : ∀ pred ∈ rawPreds p data, ∃ v : List ℚ,
      pred = PyVal.vlist (v.map PyVal.vfloat) ∧
      0 ≤ p.pos_index ∧ p.pos_index < (v.length : Int)) :
    ∃ out, p.predict data = Except.ok out := by
  simp only [Predictor.predict, hprob, if_true]
  cases ht : p.threshold with
  | none =>
    apply mapE_ok_of_forall
    intro pred hpred
    obtain ⟨v, rfl, h0, hlt⟩ := hvec pred hpred
    obtain ⟨q, hq⟩ := pyGetItem_vfloat_of_bounds v p.pos_index h0 hlt
    exact ⟨PyVal.vfloat q, hq⟩
  | some t =>
    apply mapE_ok_of_forall
    intro pred hpred
    obtain ⟨v, rfl, h0, hlt⟩ := hvec pred hpred
    obtain ⟨q, hq⟩ := pyGetItem_vfloat_of_bounds v p.pos_index h0 hlt
    refine ⟨PyVal.vint (if decide (t ≤ q) then 1 else 0), ?_⟩
    unfold probThresholdOne
    rw [hq]
    rfl

/-! Concrete learners, predictors and feature sets used by the witnesses. -/

/-- A regression learner: raw prediction is the first feature value. -/
def regLearner : Learner :=
  { probability := false
    model_type := ModelType.regressor
    feat_vectorizer := Vectorizer.dictVectorizer
    label_list := []
    predictRaw := fun _ data =>
      data.examples.map (fun ex => PyVal.vfloat (ex.headD 0)) }

def regPredictor : Predictor :=
  { learner := regLearner, pos_index := 1, threshold := none }

/-- A probability classifier over labels [neg, pos]: each example's
features are the two class probabilities (negative first is feature 1,
positive is feature 0), echoed back as the probability vector. -/
def probLearner : Learner :=
  { probability := true
    model_type := ModelType.classifier
    feat_vectorizer := Vectorizer.dictVectorizer
    label_list := [PyVal.vstr "neg", PyVal.vstr "pos"]
    predictRaw := fun _ data =>
      data.examples.map (fun ex =>
        PyVal.vlist [PyVal.vfloat (ex.getD 1 0), PyVal.vfloat (ex.headD 0)]) }

def probPredictorT : Predictor :=
  { learner := probLearner, pos_index := 1, threshold := some (mkRat 1 2) }

def probPredictorN : Predictor :=
  { learner := probLearner, pos_index := 1, threshold := none }

/-- A plain classifier whose raw prediction is a bare index for the first
example shape and a one-element container for the other. -/
def classLearner : Learner :=
  { probability := false
    model_type := ModelType.classifier
    feat_vectorizer := Vectorizer.featureHasher
    label_list := [PyVal.vstr "neg", PyVal.vstr "pos"]
    predictRaw := fun _ data =>
      data.examples.map (fun ex =>
        if ex.headD 0 = 0 then PyVal.vint 0
        else PyVal.vlist [PyVal.vfloat (ex.headD 0)]) }

def classPredictor : Predictor :=
  { learner := classLearner, pos_index := 1, threshold := none }

def fsTwo : FeatureSet := { examples := [[1, 2], [3, 4]] }

def fsThree : FeatureSet :=
  { examples := [[mkRat 1 5, mkRat 4 5], [mkRat 1 2, mkRat 1 2],
    [mkRat 9 10, mkRat 1 10]] }

def fsClass : FeatureSet := { examples := [[0], [1]] }

theorem predict_length_order_witness :
    (rawPreds regPredictor fsTwo).length = fsTwo.examples.length ∧
    regPredictor.predict fsTwo =
      Except.ok [PyVal.vfloat 1, PyVal.vfloat 3] ∧
    (([PyVal.vfloat 1, PyVal.vfloat 3] : List PyVal).length =
        fsTwo.examples.length ∧
     ∃ f : PyVal → Except PyErr PyVal,
       ∀ (i : Nat) (hi : i < (rawPreds regPredictor fsTwo).length)
         (ho : i < ([PyVal.vfloat 1, PyVal.vfloat 3] : List PyVal).length),
         f ((rawPreds regPredictor fsTwo).get ⟨i, hi⟩) =
           Except.ok (([PyVal.vfloat 1, PyVal.vfloat 3] : List PyVal).get
             ⟨i, ho⟩)) :=
  ⟨rfl, rfl, predict_length_order regPredictor fsTwo _ rfl rfl⟩

theorem predict_threshold_binary_witness :
    probPredictorT.learner.probability = true ∧
    probPredictorT.threshold = some (mkRat 1 2) ∧
    probPredictorT.predict fsThree =
      Except.ok [PyVal.vint 0, PyVal.vint 1, PyVal.vint 1] ∧
    ∀ (i : Nat)
      (ho : i < ([PyVal.vint 0, PyVal.vint 1, PyVal.vint 1] :
        List PyVal).length),
      ∃ (hi : i < (rawPreds probPredictorT fsThree).length) (v : PyVal)
        (q : ℚ),
        pyGetItem ((rawPreds probPredictorT fsThree).get ⟨i, hi⟩)
          probPredictorT.pos_index = Except.ok v ∧
        PyVal.asRat v = some q ∧
        ([PyVal.vint 0, PyVal.vint 1, PyVal.vint 1] : List PyVal).get
          ⟨i, ho⟩ = PyVal.vint (if mkRat 1 2 ≤ q then 1 else 0) ∧
        (q = mkRat 1 2 →
          ([PyVal.vint 0, PyVal.vint 1, PyVal.vint 1] : List PyVal).get
            ⟨i, ho⟩ = PyVal.vint 1) :=
  ⟨rfl, rfl, rfl,
   predict_threshold_binary probPredictorT fsThree (mkRat 1 2) _ rfl rfl rfl⟩

theorem predict_probability_raw_witness :
    probPredictorN.learner.probability = true ∧
    probPredictorN.threshold = none ∧
    probPredictorN.predict fsThree =
      Except.ok [PyVal.vfloat (mkRat 1 5), PyVal.vfloat (mkRat 1 2),
        PyVal.vfloat (mkRat 9 10)] ∧
    ∀ (i : Nat)
      (ho : i < ([PyVal.vfloat (mkRat 1 5), PyVal.vfloat (mkRat 1 2),
        PyVal.vfloat (mkRat 9 10)] : List PyVal).length),
      ∃ hi : i < (rawPreds probPredictorN fsThree).length,
        pyGetItem ((rawPreds probPredictorN fsThree).get ⟨i, hi⟩)
          probPredictorN.pos_index =
          Except.ok (([PyVal.vfloat (mkRat 1 5), PyVal.vfloat (mkRat 1 2),
            PyVal.vfloat (mkRat 9 10)] : List PyVal).get ⟨i, ho⟩) :=
  ⟨rfl, rfl, rfl,
   predict_probability_raw probPredictorN fsThree _ rfl rfl rfl⟩

theorem predict_regression_witness :
    regPredictor.learner.probability = false ∧
    regressorMixinSubclass regPredictor.learner.model_type = true ∧
    regPredictor.predict fsTwo = Except.ok (rawPreds regPredictor fsTwo) :=
  ⟨rfl, rfl, predict_regression regPredictor fsTwo rfl rfl⟩

theorem predict_classification_witness :
    classPredictor.learner.probability = false ∧
    regressorMixinSubclass classPredictor.learner.model_type = false ∧
    classPredictor.predict fsClass =
      Except.ok [PyVal.vstr "neg", PyVal.vstr "pos"] ∧
    ((∀ (i : Nat)
       (ho : i < ([PyVal.vstr "neg", PyVal.vstr "pos"] :
         List PyVal).length),
       ∃ (hi : i < (rawPreds classPredictor fsClass).length) (n : Int),
         normalizeIdx ((rawPreds classPredictor fsClass).get ⟨i, hi⟩) =
           Except.ok n ∧
         pyListGet classPredictor.learner.label_list n =
           Except.ok (([PyVal.vstr "neg", PyVal.vstr "pos"] :
             List PyVal).get ⟨i, ho⟩)) ∧
     (∀ n : Int, normalizeIdx (PyVal.vint n) = Except.ok n ∧
       normalizeIdx (PyVal.vlist [PyVal.vint n]) = Except.ok n)) :=
  ⟨rfl, rfl, rfl,
   predict_classification classPredictor fsClass _ rfl rfl rfl⟩

theorem predict_prob_index_safe_witness :
    probPredictorT.learner.probability = true ∧
    (∀ pred ∈ rawPreds probPredictorT fsThree, ∃ v : List ℚ,
      pred = PyVal.vlist (v.map PyVal.vfloat) ∧
      0 ≤ probPredictorT.pos_index ∧
      probPredictorT.pos_index < (v.length : Int)) ∧
    ∃ out, probPredictorT.predict fsThree = Except.ok out := by
  have hvec : ∀ pred ∈ rawPreds probPredictorT fsThree, ∃ v : List ℚ,
      pred = PyVal.vlist (v.map PyVal.vfloat) ∧
      0 ≤ probPredictorT.pos_index ∧
      probPredictorT.pos_index < (v.length : Int) := by
    intro pred hpred
    have hr : rawPreds probPredictorT fsThree =
        [PyVal.vlist [PyVal.vfloat (mkRat 4 5), PyVal.vfloat (mkRat 1 5)],
         PyVal.vlist [PyVal.vfloat (mkRat 1 2), PyVal.vfloat (mkRat 1 2)],
         PyVal.vlist [PyVal.vfloat (mkRat 1 10), PyVal.vfloat (mkRat 9 10)]] :=
        rfl
    rw [hr] at hpred
    simp only [List.mem_cons, List.not_mem_nil, or_false] at hpred
    rcases hpred with rfl | rfl | rfl
    · exact ⟨[mkRat 4 5, mkRat 1 5], rfl, by decide, by decide⟩
    · exact ⟨[mkRat 1 2, mkRat 1 2], rfl, by decide, by decide⟩
    · exact ⟨[mkRat 1 10, mkRat 9 10], rfl, by decide, by decide⟩
  exact ⟨rfl, hvec,
    predict_prob_index_safe probPredictorT fsThree rfl hvec⟩

/-! The CLI entry point main(): argparse namespace, per-file dispatch loop,
and the external reader collaborator. -/

/-- The argparse result for this program: one attribute per declared
argument dest (model_file, input_file, label_col, positive_class, quiet,
threshold). -/
structure Args where
  model_file : String
  input_file : List String
  label_col : String
  positive_class : Int
  quiet : Bool
  threshold : Option ℚ

/-- A dynamically typed attribute value held by the argparse namespace. -/
inductive ArgVal where
  | str : String → ArgVal
  | strList : List String → ArgVal
  | int : Int → ArgVal
  | bool : Bool → ArgVal
  | floatOpt : Option ℚ → ArgVal

/-- Python attribute access args.name on the argparse namespace: defined
attributes return their value, any other name raises AttributeError. -/
def Args.getattr (a : Args) : String → Except PyErr ArgVal
  | "model_file" => Except.ok (ArgVal.str a.model_file)
  | "input_file" => Except.ok (ArgVal.strList a.input_file)
  | "label_col" => Except.ok (ArgVal.str a.label_col)
  | "positive_class" => Except.ok (ArgVal.int a.positive_class)
  | "quiet" => Except.ok (ArgVal.bool a.quiet)
  | "threshold" => Except.ok (ArgVal.floatOpt a.threshold)
  | _ => Except.error PyErr.attributeError

/-- Position of the last occurrence of c in cs, or -1 when absent
(Python str.rfind). -/
def lastIdxAux (c : Char) : List Char → Nat → Int → Int
  | [], _, acc => acc
  | x :: xs, i, acc =>
    lastIdxAux c xs (i + 1) (if x = c then (i : Int) else acc)

def rfindIdx (cs : List Char) (c : Char) : Int := lastIdxAux c cs 0 (-1)

/-- os.path.splitext on a posix path string (genericpath.splitext with
sep '/', extsep '.'): splits at the last dot after the last slash, unless
the basename up to that dot is entirely dots. -/
def splitextCore (p : String) : String × String :=
  let cs := p.data
  let sepIndex := rfindIdx cs '/'
  let dotIndex := rfindIdx cs '.'
  if sepIndex < dotIndex then
    if ((cs.drop (sepIndex + 1).toNat).take
        (dotIndex.toNat - (sepIndex + 1).toNat)).any (fun ch => ch ≠ '.')
    then (String.mk (cs.take dotIndex.toNat), String.mk (cs.drop dotIndex.toNat))
    else (p, "")
  else (p, "")

/-- Python str.lower() restricted to ASCII letters, which covers every
suffix this program compares against. -/
def lowerChar (c : Char) : Char :=
  if 'A' ≤ c ∧ c ≤ 'Z' then Char.ofNat (c.toNat + 32) else c

def lowerStr (s : String) : String := String.mk (s.data.map lowerChar)

/-- os.path.splitext applied to a dynamic value: os.fspath rejects
anything that is not a path string with TypeError before splitting. -/
def os_path_splitext : ArgVal → Except PyErr (String × String)
  | ArgVal.str s => Except.ok (splitextCore s)
  | _ => Except.error PyErr.typeError

/-- Coercion used where the embedded code consumes a string attribute. -/
def expectStr : ArgVal → Except PyErr String
  | ArgVal.str s => Except.ok s
  | _ => Except.error PyErr.typeError

/-- Coercion used where the embedded code consumes a boolean attribute. -/
def expectBool : ArgVal → Except PyErr Bool
  | ArgVal.bool b => Except.ok b
  | _ => Except.error PyErr.typeError

/-- Modelled from the spec: the keys of the suffix-to-reader mapping
EXT_TO_READER imported from skll.data.readers, which is not under src/;
per the spec the supported suffixes are arff, csv, jsonlines, libsvm,
megam, ndj and tsv. -/
def EXT_TO_READER_exts : List String :=
  [".arff", ".csv", ".jsonlines", ".libsvm", ".megam", ".ndj", ".tsv"]

/-- An observable action of main: a logger.error call or a print call. -/
inductive Event where
  | logError : String → Event
  | printed : PyVal → Event

/-- External collaborators of main: Learner.from_file and the reader
read() operation, keyed by (suffix, path, label_col, quiet). -/
structure Env where
  loadLearner : String → Learner
  readerRead : String → String → String → Bool → FeatureSet

/-- One iteration of the for input_file loop in main, translated
statement by statement; note that the source computes the extension from
os.path.splitext(args.input_file) (the whole list) and constructs the
reader on args.infile (an attribute that does not exist), not from the
loop variable input_file. -/
def fileStep (env : Env) (predictor : Predictor) (args : Args)
    (input_file : String) : Except PyErr (List Event) :=
  match Args.getattr args "input_file" with
  | Except.error e => Except.error e
  | Except.ok ifv =>
    match os_path_splitext ifv with
    | Except.error e => Except.error e
    | Except.ok se =>
      let input_extension := lowerStr se.2
      if input_extension ∉ EXT_TO_READER_exts then
        Except.ok [Event.logError
          ("Input file must be in either .arff, .csv, .jsonlines, " ++
           ".libsvm, .megam, .ndj, or .tsv format. Skipping file " ++
           input_file)]
      else
        match Args.getattr args "infile" with
        | Except.error e => Except.error e
        | Except.ok pv =>
          match expectStr pv with
          | Except.error e => Except.error e
          | Except.ok path =>
            match Args.getattr args "quiet" with
            | Except.error e => Except.error e
            | Except.ok qv =>
              match expectBool qv with
              | Except.error e => Except.error e
              | Except.ok q =>
                match Args.getattr args "label_col" with
                | Except.error e => Except.error e
                | Except.ok lv =>
                  match expectStr lv with
                  | Except.error e => Except.error e
                  | Except.ok lc =>
                    let feature_set := env.readerRead input_extension path lc q
                    match predictor.predict feature_set with
                    | Except.error e => Except.error e
                    | Except.ok preds =>
                      Except.ok (preds.map Event.printed)

/-- The for input_file in args.input_file loop: events accumulate in
order; an uncaught exception aborts the rest of the run. -/
def runFiles (env : Env) (predictor : Predictor) (args : Args) :
    List String → List Event × Option PyErr
  | [] => ([], none)
  | f :: fs =>
    match fileStep env predictor args f with
    | Except.error e => ([], some e)
    | Except.ok evs =>
      let r := runFiles env predictor args fs
      (evs ++ r.1, r.2)

/-- main(argv) after argument parsing: constructs the Predictor from the
model file, positive class and threshold, then iterates the input files. -/
def pymain (env : Env) (args : Args) : List Event × Option PyErr :=
  let predictor := Predictor.init env.loadLearner args.model_file
    args.threshold args.positive_class
  runFiles env predictor args args.input_file

/-- A concrete environment for evaluating main: a regression learner for
any model file, and a fixed two-example FeatureSet from any reader. -/
def envX : Env :=
  { loadLearner := fun _ => regLearner
    readerRead := fun _ _ _ _ => fsTwo }

def argsMixed : Args :=
  { model_file := "model.skll"
    input_file := ["examples.csv", "examples.xyz"]
    label_col := "y"
    positive_class := 1
    quiet := false
    threshold := none }

def argsSingle : Args :=
  { model_file := "model.skll"
    input_file := ["examples.csv"]
    label_col := "y"
    positive_class := 1
    quiet := false
    threshold := none }

def argsUpper : Args :=
  { model_file := "model.skll"
    input_file := ["EXAMPLES.CSV"]
    label_col := "y"
    positive_class := 1
    quiet := false
    threshold := none }

/-- Claim C6 fails on the code: on a run with one recognized (.csv) and
one unrecognized (.xyz) input file, main raises a TypeError on the very
first iteration (os.path.splitext is applied to the whole args.input_file
list), so no error is logged for the unrecognized file, no predictions
are emitted for the recognized one, and the run aborts instead of
continuing per file. -/
theorem main_mixed_suffixes_aborts :
    pymain envX argsMixed = ([], some PyErr.typeError) := rfl

/-- Claim C7 fails on the code: even on a run whose only input file has a
recognized .csv suffix, main raises a TypeError from splitext on the
args.input_file list before any reader is constructed, and the reader
construction itself names the nonexistent attribute args.infile, which
would raise AttributeError. No FeatureSet is read and no prediction is
printed. -/
theorem main_recognized_file_aborts :
    pymain envX argsSingle = ([], some PyErr.typeError) ∧
    Args.getattr argsSingle "infile" = Except.error PyErr.attributeError :=
  ⟨rfl, rfl⟩

/-- Claim C9 fails on the code: the extension lowering (.lower()) would
recognize an uppercase .CSV suffix if it were applied to the current loop
file, but the code computes the extension of the whole args.input_file
list, so the run aborts with a TypeError and the uppercase file is
neither dispatched nor skipped. -/
theorem main_uppercase_suffix_aborts :
    pymain envX argsUpper = ([], some PyErr.typeError) ∧
    lowerStr (splitextCore "EXAMPLES.CSV").2 ∈ EXT_TO_READER_exts :=
  ⟨rfl, by decide⟩
